import Mathlib

/-!
Shallow embedding of the libvirt storage-pool resource lifecycle
(`resourceLibvirtPoolCreate` / `Read` / `Delete` / `Exists`) from the
terraform-provider-libvirt repository, together with the pool-definition
codec (`pool_def.go`).

The hypervisor connection is modelled as a record of call oracles; each
CRUD function returns, besides its result, the ordered trace of hypervisor
calls it issued, so that "no call before the error" and "step X precedes
step Y" properties are statable.  The per-name mutex (`poolMutexKV`) only
matters under concurrency and is not part of the sequential embedding; the
`client.libvirt == nil` guard is subsumed by the hypervisor record being
present.  The XML wire format is modelled as the structured definition
itself: `encoding/xml` marshal followed by unmarshal is the identity on
the `libvirtxml.StoragePool` structures used here.
-/

namespace LibvirtPool

/-- Model of `libvirtxml.StoragePoolTarget`: target element of a pool definition. -/
structure StoragePoolTarget where
  path : String
deriving Repr, DecidableEq

/-- Model of `libvirtxml.StoragePoolSourceDevice`: one source device of a pool. -/
structure StoragePoolSourceDevice where
  path : String
deriving Repr, DecidableEq

/-- Model of `libvirtxml.StoragePoolSource`: source element (device list). -/
structure StoragePoolSource where
  device : List StoragePoolSourceDevice
deriving Repr, DecidableEq

/-- Model of `libvirtxml.StoragePool`: the structured pool definition submitted to
and described back from the hypervisor. -/
structure StoragePool where
  type : String
  name : String
  target : Option StoragePoolTarget
  source : Option StoragePoolSource
deriving Repr, DecidableEq

/-- The schema-driven attribute bag (`schema.ResourceData`) restricted to
the attributes the pool resource declares and mutates. -/
structure ResourceData where
  id : String
  name : String
  type : String
  path : String
  sourceDevices : List String
  capacity : Nat
  allocation : Nat
  available : Nat
deriving Repr, DecidableEq

/-- Model of `libvirt.ErrorNumber`, restricted to the code the program branches
on; every other code is `other`. -/
inductive VirErrorCode
  | errNoStoragePool
  | other
deriving Repr, DecidableEq

/-- Model of `libvirt.Error`: typed error returned by connection calls. -/
structure VirError where
  code : VirErrorCode
  msg : String
deriving Repr, DecidableEq

/-- One hypervisor-connection call, as recorded in a trace. -/
inductive HCall
  | lookupByName (name : String)
  | defineXML (d : StoragePool)
  | build
  | setAutostart
  | start
  | refresh
  | getUUID
  | waitForExists (id : String)
  | lookupByUUID (id : String)
  | getName
  | getInfo
  | getXMLDesc
  | isActive
  | stopPool
  | undefinePool
deriving Repr, DecidableEq

/-- Model of the `libvirt.StoragePoolInfo` fields read back by the program. -/
structure PoolInfo where
  capacity : Nat
  allocation : Nat
  available : Nat
deriving Repr, DecidableEq

/-- Oracle for the pool object returned by `StoragePoolDefineXML`:
outcomes of the mutation calls issued during create. -/
structure CreatedPool where
  buildRes : Except String Unit
  setAutostartRes : Except String Unit
  startRes : Except String Unit
  refreshRes : Except String Unit
  getUUIDRes : Except String String

/-- Oracle for a pool object obtained by lookup: outcomes of the calls
issued during read and delete. -/
structure PoolHandle where
  getNameRes : Except String String
  getInfoRes : Except String PoolInfo
  getXMLDescRes : Except String StoragePool
  isActiveRes : Except String Bool
  stopRes : Except String Unit
  undefineRes : Except String Unit

/-- The live hypervisor connection, as a record of call oracles.
`lookupByName n = true` means `LookupStoragePoolByName` succeeds (the name
is in use).  `transformXML` is the in-process XSLT collaborator
(`transformResourceXML`): it issues no hypervisor call; it is the identity
when no stylesheet is declared.  `pollFound k` tells whether the existence
poller's lookup succeeds at attempt `k`. -/
structure Hypervisor where
  lookupByName : String → Bool
  transformXML : StoragePool → Except String StoragePool
  define : StoragePool → Except String CreatedPool
  pollFound : Nat → Bool
  lookupByUUID : String → Except VirError PoolHandle

/-- Serialization helper `xmlMarshallIndented` (not under src/, used at create): pure
serialization of the structured definition.  With the wire format
modelled as the structure itself it always succeeds and is the identity;
the fatal-on-failure branch in create is kept for faithfulness. -/
def xmlMarshallIndented (p : StoragePool) : Except String StoragePool :=
  Except.ok p

/-- Parser `newDefPoolFromXML` (src/libvirt/pool_def.go): parse a serialized
description back into a structured definition.  On the modelled wire
format `xml.Unmarshal` is the identity and never fails. -/
def newDefPoolFromXML (s : StoragePool) : Except String StoragePool :=
  Except.ok s

/-- Modelled from the spec: `poolWaitForExists` is not under src/ (only
its caller is).  The Existence Poller polls lookup-by-id at a fixed
interval up to a bounded number of attempts, succeeding as soon as a
lookup succeeds; exhausting the bound is a fatal timeout error. -/
def poolWaitForExists (found : Nat → Bool) (maxAttempts : Nat) :
    Except String Unit :=
  if (List.range maxAttempts).any found then Except.ok ()
  else Except.error "timed out waiting for pool to reach EXISTS state"

/-- One attribute write performed by read (`d.Set` / `d.SetId`). -/
inductive Write
  | setId (v : String)
  | name (v : String)
  | capacity (v : Nat)
  | allocation (v : Nat)
  | available (v : Nat)
  | path (v : String)
  | type (v : String)
deriving Repr, DecidableEq

/-- Outcome of a read: hypervisor calls issued, attribute writes
performed, resulting attribute bag, and the returned error (`none` is
success). -/
structure ReadOutcome where
  calls : List HCall
  writes : List Write
  d : ResourceData
  err : Option String
deriving Repr, DecidableEq

/-- Embedding of `resourceLibvirtPoolRead` (src/unnamed/part_001, lines 222-286):
lookup by UUID; a nil pool (any lookup failure) is treated as externally
deleted — clear the id and succeed.  Otherwise read back name, info and
the XML description, parse it, and surface path (non-logical types only,
and only when non-empty) and type. -/
def resourceLibvirtPoolRead (hv : Hypervisor) (d : ResourceData) :
    ReadOutcome :=
  match hv.lookupByUUID d.id with
  | Except.error _ =>
      ⟨[HCall.lookupByUUID d.id], [Write.setId ""], { d with id := "" }, none⟩
  | Except.ok pool =>
    match pool.getNameRes with
    | Except.error e =>
        ⟨[HCall.lookupByUUID d.id, HCall.getName], [], d,
          some ("error retrieving pool name: " ++ e)⟩
    | Except.ok poolName =>
      let d1 := { d with name := poolName }
      let w1 := [Write.name poolName]
      match pool.getInfoRes with
      | Except.error e =>
          ⟨[HCall.lookupByUUID d.id, HCall.getName, HCall.getInfo], w1, d1,
            some ("error retrieving pool info: " ++ e)⟩
      | Except.ok info =>
        let d2 := { d1 with capacity := info.capacity,
                            allocation := info.allocation,
                            available := info.available }
        let w2 := w1 ++ [Write.capacity info.capacity,
                         Write.allocation info.allocation,
                         Write.available info.available]
        let calls3 := [HCall.lookupByUUID d.id, HCall.getName,
                       HCall.getInfo, HCall.getXMLDesc]
        match pool.getXMLDescRes with
        | Except.error e =>
            ⟨calls3, w2, d2,
              some ("could not get XML description for pool " ++ poolName
                    ++ ": " ++ e)⟩
        | Except.ok descXML =>
          match newDefPoolFromXML descXML with
          | Except.error e =>
              ⟨calls3, w2, d2,
                some ("could not get a pool definition from XML: " ++ e)⟩
          | Except.ok poolDef =>
            let poolPath :=
              match poolDef.target with
              | some t => t.path
              | none => ""
            let step1 : ResourceData × List Write :=
              if poolDef.type ≠ "logical" then
                if poolPath = "" then (d2, w2)
                else ({ d2 with path := poolPath },
                      w2 ++ [Write.path poolPath])
              else (d2, w2)
            let step2 : ResourceData × List Write :=
              if poolDef.type = "" then step1
              else ({ step1.1 with type := poolDef.type },
                    step1.2 ++ [Write.type poolDef.type])
            ⟨calls3, step2.2, step2.1, none⟩

/-- Outcome of a create (or delete): hypervisor calls issued, resulting
attribute bag, and the returned error (`none` is success). -/
structure CreateOutcome where
  calls : List HCall
  d : ResourceData
  err : Option String
deriving Repr, DecidableEq

/-- The type-specific validation and definition construction inlined in
`resourceLibvirtPoolCreate` (src/unnamed/part_001, lines 110-159),
reached only for type `dir` or `logical`: dir requires a non-empty path
and zero source devices; logical forbids a non-empty path; the returned
flag is `needToBuild`, false exactly for a logical pool with no source
devices. -/
def buildPoolDef (d : ResourceData) : Except String (StoragePool × Bool) :=
  if d.type = "dir" then
    if d.path = "" then
      Except.error "\x22path\x22 attribute is requires for storage pools of type \x22dir\x22"
    else if d.sourceDevices.length ≠ 0 then
      Except.error "\x22source_devices\x22 attribute cannot be used for storage pool of type \x22dir\x22"
    else
      Except.ok
        ({ type := "dir", name := d.name,
           target := some { path := d.path }, source := none }, true)
  else
    if d.path ≠ "" then
      Except.error "\x22path\x22 attribute cannot be used for storage pool of type \x22logical\x22"
    else
      let devices := d.sourceDevices.map
        (fun p => ({ path := p } : StoragePoolSourceDevice))
      if devices.isEmpty then
        Except.ok
          ({ type := "logical", name := d.name,
             target := none, source := none }, false)
      else
        Except.ok
          ({ type := "logical", name := d.name, target := none,
             source := some { device := devices } }, true)

/-- Tail of create after a successful define and (when needed) build:
autostart, start, refresh, id retrieval, id recording, existence poll,
then a full read (src/unnamed/part_001, lines 186-219). -/
def createAfterBuild (hv : Hypervisor) (maxAttempts : Nat)
    (d : ResourceData) (calls : List HCall) (pool : CreatedPool) :
    CreateOutcome :=
  match pool.setAutostartRes with
  | Except.error e =>
      ⟨calls ++ [HCall.setAutostart], d,
        some ("Error setting up libvirt storage pool: " ++ e)⟩
  | Except.ok _ =>
  match pool.startRes with
  | Except.error e =>
      ⟨calls ++ [HCall.setAutostart, HCall.start], d,
        some ("Error starting libvirt storage pool: " ++ e)⟩
  | Except.ok _ =>
  match pool.refreshRes with
  | Except.error e =>
      ⟨calls ++ [HCall.setAutostart, HCall.start, HCall.refresh], d,
        some ("Error refreshing libvirt storage pool: " ++ e)⟩
  | Except.ok _ =>
  match pool.getUUIDRes with
  | Except.error e =>
      ⟨calls ++ [HCall.setAutostart, HCall.start, HCall.refresh,
                 HCall.getUUID], d,
        some ("Error retrieving libvirt pool id: " ++ e)⟩
  | Except.ok uuid =>
    let d2 := { d with id := uuid }
    let calls2 := calls ++ [HCall.setAutostart, HCall.start, HCall.refresh,
                            HCall.getUUID]
    match poolWaitForExists hv.pollFound maxAttempts with
    | Except.error e =>
        ⟨calls2 ++ [HCall.waitForExists uuid], d2, some e⟩
    | Except.ok _ =>
      let ro := resourceLibvirtPoolRead hv d2
      ⟨calls2 ++ [HCall.waitForExists uuid] ++ ro.calls, ro.d, ro.err⟩

/-- Middle of create after a successful define: the optional build step,
fatal on failure, skipped when `needToBuild` is false
(src/unnamed/part_001, lines 179-184). -/
def createAfterDefine (hv : Hypervisor) (maxAttempts : Nat)
    (d : ResourceData) (calls : List HCall) (pool : CreatedPool)
    (needToBuild : Bool) : CreateOutcome :=
  if needToBuild then
    match pool.buildRes with
    | Except.error e =>
        ⟨calls ++ [HCall.build], d,
          some ("Error building libvirt storage pool: " ++ e)⟩
    | Except.ok _ =>
        createAfterBuild hv maxAttempts d (calls ++ [HCall.build]) pool
  else
    createAfterBuild hv maxAttempts d calls pool

/-- Embedding of `resourceLibvirtPoolCreate` (src/unnamed/part_001, lines 87-220):
type gate, uniqueness pre-check by name, type-specific validation and
definition construction, serialize, optional transform, define, optional
build, autostart, start, refresh, record id, existence poll, final read. -/
def resourceLibvirtPoolCreate (hv : Hypervisor) (maxAttempts : Nat)
    (d : ResourceData) : CreateOutcome :=
  if d.type ≠ "dir" ∧ d.type ≠ "logical" then
    ⟨[], d,
      some "Only storage pools of type \x22dir\x22 and \x22logical\x22 are supported"⟩
  else
  if hv.lookupByName d.name then
    ⟨[HCall.lookupByName d.name], d,
      some ("storage pool \x27" ++ d.name ++ "\x27 already exists")⟩
  else
    let calls0 := [HCall.lookupByName d.name]
    match buildPoolDef d with
    | Except.error e => ⟨calls0, d, some e⟩
    | Except.ok (poolDef, needToBuild) =>
      match xmlMarshallIndented poolDef with
      | Except.error e =>
          ⟨calls0, d, some ("Error serializing libvirt storage pool: " ++ e)⟩
      | Except.ok data =>
        match hv.transformXML data with
        | Except.error e =>
            ⟨calls0, d, some ("Error applying XSLT stylesheet: " ++ e)⟩
        | Except.ok data2 =>
          match hv.define data2 with
          | Except.error e =>
              ⟨calls0 ++ [HCall.defineXML data2], d,
                some ("Error creating libvirt storage pool: " ++ e)⟩
          | Except.ok pool =>
              createAfterDefine hv maxAttempts d
                (calls0 ++ [HCall.defineXML data2]) pool needToBuild

/-- Modelled from the spec: `deletePool` is not under src/ (only its
callers `resourceLibvirtPoolDelete` and the tests are).  Delete protocol:
look up by id; if lookup fails because the resource is already absent,
treat as success (idempotent delete); otherwise stop the pool if it is
active, then undefine it; both steps fatal on failure. -/
def deletePool (hv : Hypervisor) (id : String) :
    List HCall × Option String :=
  match hv.lookupByUUID id with
  | Except.error e =>
      if e.code = VirErrorCode.errNoStoragePool then
        ([HCall.lookupByUUID id], none)
      else
        ([HCall.lookupByUUID id],
          some ("error retrieving storage pool " ++ id ++ ": " ++ e.msg))
  | Except.ok pool =>
    match pool.isActiveRes with
    | Except.error e =>
        ([HCall.lookupByUUID id, HCall.isActive],
          some ("error determining pool state: " ++ e))
    | Except.ok active =>
      if active then
        match pool.stopRes with
        | Except.error e =>
            ([HCall.lookupByUUID id, HCall.isActive, HCall.stopPool],
              some ("error stopping storage pool: " ++ e))
        | Except.ok _ =>
          match pool.undefineRes with
          | Except.error e =>
              ([HCall.lookupByUUID id, HCall.isActive, HCall.stopPool,
                HCall.undefinePool],
                some ("error undefining storage pool: " ++ e))
          | Except.ok _ =>
              ([HCall.lookupByUUID id, HCall.isActive, HCall.stopPool,
                HCall.undefinePool], none)
      else
        match pool.undefineRes with
        | Except.error e =>
            ([HCall.lookupByUUID id, HCall.isActive, HCall.undefinePool],
              some ("error undefining storage pool: " ++ e))
        | Except.ok _ =>
            ([HCall.lookupByUUID id, HCall.isActive, HCall.undefinePool],
              none)

/-- Embedding of `resourceLibvirtPoolDelete` (src/unnamed/part_001, lines 288-295):
delegates to `deletePool` on the resource's current id. -/
def resourceLibvirtPoolDelete (hv : Hypervisor) (d : ResourceData) :
    List HCall × Option String :=
  deletePool hv d.id

/-- Embedding of `resourceLibvirtPoolExists` (src/unnamed/part_001, lines 297-317):
lookup by UUID; the `ERR_NO_STORAGE_POOL` code maps to `(false, none)`,
any other lookup error to `(false, some wrapped)`, success to
`(true, none)`. -/
def resourceLibvirtPoolExists (hv : Hypervisor) (d : ResourceData) :
    List HCall × Bool × Option String :=
  match hv.lookupByUUID d.id with
  | Except.error e =>
      if e.code ≠ VirErrorCode.errNoStoragePool then
        ([HCall.lookupByUUID d.id], false,
          some ("Can\x27t retrieve pool " ++ d.id))
      else
        ([HCall.lookupByUUID d.id], false, none)
  | Except.ok _ => ([HCall.lookupByUUID d.id], true, none)

/-! ## Derived notions and concrete instances used by witnesses -/

/-- The target path recorded in a definition, empty when absent
(mirrors the `poolDef.Target != nil && poolDef.Target.Path != ""`
extraction at read). -/
def poolPathOf (pd : StoragePool) : String :=
  match pd.target with
  | some t => t.path
  | none => ""

/-- The source-device paths recorded in a definition, empty when the
source element is absent. -/
def sourceDevicesOf (pd : StoragePool) : List String :=
  match pd.source with
  | some s => s.device.map (fun dev => dev.path)
  | none => []

/-- A concrete attribute bag for a dir pool that already has an id. -/
def dRes0 : ResourceData :=
  { id := "u1", name := "pool1", type := "dir", path := "/tmp/x",
    sourceDevices := [], capacity := 0, allocation := 0, available := 0 }

/-- A concrete dir pool definition. -/
def dirDef1 : StoragePool :=
  { type := "dir", name := "pool1",
    target := some { path := "/tmp/x" }, source := none }

/-- A concrete pool handle consistent with `dirDef1`. -/
def okHandle : PoolHandle :=
  { getNameRes := Except.ok "pool1",
    getInfoRes := Except.ok { capacity := 100, allocation := 10, available := 90 },
    getXMLDescRes := Except.ok dirDef1,
    isActiveRes := Except.ok true,
    stopRes := Except.ok (),
    undefineRes := Except.ok () }

/-- A connection on which every lookup-by-id fails with
`ERR_NO_STORAGE_POOL` and no name is in use. -/
def hvAbsent : Hypervisor :=
  { lookupByName := fun _ => false,
    transformXML := fun p => Except.ok p,
    define := fun _ => Except.error "no define",
    pollFound := fun _ => false,
    lookupByUUID := fun _ =>
      Except.error { code := VirErrorCode.errNoStoragePool, msg := "not found" } }

/-- A connection on which every lookup-by-id fails with a non-not-found
error code. -/
def hvOtherErr : Hypervisor :=
  { lookupByName := fun _ => false,
    transformXML := fun p => Except.ok p,
    define := fun _ => Except.error "no define",
    pollFound := fun _ => false,
    lookupByUUID := fun _ =>
      Except.error { code := VirErrorCode.other, msg := "connection reset" } }

/-- A connection on which lookup-by-id finds `okHandle`. -/
def hvEcho : Hypervisor :=
  { lookupByName := fun _ => false,
    transformXML := fun p => Except.ok p,
    define := fun _ => Except.error "no define",
    pollFound := fun _ => false,
    lookupByUUID := fun _ => Except.ok okHandle }

/-- Closed form of a read on which every hypervisor call succeeds: the
calls issued, the attribute writes (path only for non-logical types and
non-empty paths, type only when non-empty) and the final attribute bag. -/
theorem read_ok_eq (hv : Hypervisor) (d : ResourceData) (ph : PoolHandle)
    (nm : String) (info : PoolInfo) (pd : StoragePool)
    (hl : hv.lookupByUUID d.id = Except.ok ph)
    (hn : ph.getNameRes = Except.ok nm)
    (hi : ph.getInfoRes = Except.ok info)
    (hx : ph.getXMLDescRes = Except.ok pd) :
    resourceLibvirtPoolRead hv d =
      ⟨[HCall.lookupByUUID d.id, HCall.getName, HCall.getInfo,
        HCall.getXMLDesc],
       [Write.name nm, Write.capacity info.capacity,
        Write.allocation info.allocation, Write.available info.available]
         ++ (if pd.type ≠ "logical" ∧ poolPathOf pd ≠ "" then
               [Write.path (poolPathOf pd)] else [])
         ++ (if pd.type ≠ "" then [Write.type pd.type] else []),
       { d with
         name := nm
         capacity := info.capacity
         allocation := info.allocation
         available := info.available
         path := if pd.type ≠ "logical" ∧ poolPathOf pd ≠ "" then
                   poolPathOf pd else d.path
         type := if pd.type ≠ "" then pd.type else d.type },
       none⟩ := by
  unfold resourceLibvirtPoolRead
  simp only [hl, hn, hi, hx, newDefPoolFromXML, poolPathOf]
  by_cases hlog : pd.type = "logical" <;>
    by_cases hp : (match pd.target with | some t => t.path | none => "") = "" <;>
      by_cases ht : pd.type = "" <;>
        simp_all

/-! ## Claim theorems -/

/-- Claim C2: when the read-time lookup by durable id does not find the pool
(`ERR_NO_STORAGE_POOL`), read clears the resource identifier and returns
success with no error. -/
theorem read_not_found_clears_id (hv : Hypervisor) (d : ResourceData)
    (e : VirError) (h : hv.lookupByUUID d.id = Except.error e)
    (hc : e.code = VirErrorCode.errNoStoragePool) :
    resourceLibvirtPoolRead hv d =
      ⟨[HCall.lookupByUUID d.id], [Write.setId ""], { d with id := "" },
        none⟩ := by
  unfold resourceLibvirtPoolRead
  rw [h]

/-- Witness for C2 at a concrete connection and resource. -/
theorem read_not_found_clears_id_witness :
    resourceLibvirtPoolRead hvAbsent dRes0 =
      ⟨[HCall.lookupByUUID "u1"], [Write.setId ""],
        { dRes0 with id := "" }, none⟩ :=
  read_not_found_clears_id hvAbsent dRes0
    { code := VirErrorCode.errNoStoragePool, msg := "not found" } rfl rfl

/-- Claim C10: read treats a lookup failure of any kind — not only the
`ERR_NO_STORAGE_POOL` code that exists distinguishes — as external
deletion: it clears the identifier and returns success. -/
theorem read_any_error_as_deleted (hv : Hypervisor) (d : ResourceData)
    (e : VirError) (h : hv.lookupByUUID d.id = Except.error e) :
    resourceLibvirtPoolRead hv d =
      ⟨[HCall.lookupByUUID d.id], [Write.setId ""], { d with id := "" },
        none⟩ := by
  unfold resourceLibvirtPoolRead
  rw [h]

/-- Witness for C10 at a connection whose lookup fails with a
non-not-found error code. -/
theorem read_any_error_as_deleted_witness :
    resourceLibvirtPoolRead hvOtherErr dRes0 =
      ⟨[HCall.lookupByUUID "u1"], [Write.setId ""],
        { dRes0 with id := "" }, none⟩ :=
  read_any_error_as_deleted hvOtherErr dRes0
    { code := VirErrorCode.other, msg := "connection reset" } rfl

/-- Claim C3: deleting a pool that is already absent (the lookup by id fails
with the not-found code) succeeds with no error. -/
theorem delete_absent_succeeds (hv : Hypervisor) (d : ResourceData)
    (e : VirError) (h : hv.lookupByUUID d.id = Except.error e)
    (hc : e.code = VirErrorCode.errNoStoragePool) :
    resourceLibvirtPoolDelete hv d = ([HCall.lookupByUUID d.id], none) := by
  unfold resourceLibvirtPoolDelete deletePool
  rw [h]
  simp [hc]

/-- Witness for C3 at a concrete connection and resource. -/
theorem delete_absent_succeeds_witness :
    resourceLibvirtPoolDelete hvAbsent dRes0 =
      ([HCall.lookupByUUID "u1"], none) :=
  delete_absent_succeeds hvAbsent dRes0
    { code := VirErrorCode.errNoStoragePool, msg := "not found" } rfl rfl

/-- Claim C7: the existence check maps a not-found lookup error to
`(false, no error)`, any other lookup error to `false` with a fatal
wrapped message, and a successful lookup to `(true, no error)`. -/
theorem exists_protocol (hv : Hypervisor) (d : ResourceData) :
    (∀ e, hv.lookupByUUID d.id = Except.error e →
      resourceLibvirtPoolExists hv d =
        ([HCall.lookupByUUID d.id], false,
          if e.code = VirErrorCode.errNoStoragePool then none
          else some ("Can\x27t retrieve pool " ++ d.id))) ∧
    (∀ ph, hv.lookupByUUID d.id = Except.ok ph →
      resourceLibvirtPoolExists hv d =
        ([HCall.lookupByUUID d.id], true, none)) := by
  constructor
  · intro e h
    unfold resourceLibvirtPoolExists
    rw [h]
    by_cases hc : e.code = VirErrorCode.errNoStoragePool <;> simp [hc]
  · intro ph h
    unfold resourceLibvirtPoolExists
    rw [h]

/-- Witness for C7: a non-not-found lookup failure yields `false` with
the fatal wrapped message. -/
theorem exists_protocol_witness :
    resourceLibvirtPoolExists hvOtherErr dRes0 =
      ([HCall.lookupByUUID "u1"], false,
        some "Can\x27t retrieve pool u1") := by
  have h := (exists_protocol hvOtherErr dRes0).1
    { code := VirErrorCode.other, msg := "connection reset" } rfl
  simpa using h

/-- A logical pool definition that does carry a target path, as a
hypervisor may report one. -/
def logicalDefWithPath : StoragePool :=
  { type := "logical", name := "lv1",
    target := some { path := "/dev/vg0" }, source := none }

/-- A pool handle describing back `logicalDefWithPath`. -/
def logicalHandle : PoolHandle :=
  { getNameRes := Except.ok "lv1",
    getInfoRes := Except.ok { capacity := 1, allocation := 1, available := 0 },
    getXMLDescRes := Except.ok logicalDefWithPath,
    isActiveRes := Except.ok true,
    stopRes := Except.ok (),
    undefineRes := Except.ok () }

/-- A connection on which lookup-by-id finds `logicalHandle`. -/
def hvLogical : Hypervisor :=
  { lookupByName := fun _ => false,
    transformXML := fun p => Except.ok p,
    define := fun _ => Except.error "no define",
    pollFound := fun _ => false,
    lookupByUUID := fun _ => Except.ok logicalHandle }

/-- Claim C9: reading a pool whose parsed definition has type `logical` never
writes the path attribute, even when the definition carries a non-empty
target path; any path write implies a non-logical type and a non-empty
path. -/
theorem read_logical_never_surfaces_path (hv : Hypervisor)
    (d : ResourceData) (ph : PoolHandle) (nm : String) (info : PoolInfo)
    (pd : StoragePool)
    (hl : hv.lookupByUUID d.id = Except.ok ph)
    (hn : ph.getNameRes = Except.ok nm)
    (hi : ph.getInfoRes = Except.ok info)
    (hx : ph.getXMLDescRes = Except.ok pd) :
    (pd.type = "logical" →
      ∀ v, Write.path v ∉ (resourceLibvirtPoolRead hv d).writes) ∧
    (∀ v, Write.path v ∈ (resourceLibvirtPoolRead hv d).writes →
      pd.type ≠ "logical" ∧ v ≠ "") := by
  rw [read_ok_eq hv d ph nm info pd hl hn hi hx]
  constructor
  · intro hlog v
    simp [hlog]
  · intro v hmem
    by_cases hlog : pd.type = "logical"
    · simp [hlog] at hmem
    · by_cases hp : poolPathOf pd = ""
      · by_cases ht : pd.type = "" <;> simp [hlog, hp, ht] at hmem
      · by_cases ht : pd.type = "" <;> simp [hlog, hp, ht] at hmem <;>
          exact ⟨hlog, hmem ▸ hp⟩

/-- Witness for C9: a logical definition with the non-empty target path
`/dev/vg0` still produces no path write. -/
theorem read_logical_never_surfaces_path_witness :
    Write.path "/dev/vg0" ∉ (resourceLibvirtPoolRead hvLogical dRes0).writes :=
  (read_logical_never_surfaces_path hvLogical dRes0 logicalHandle "lv1"
    { capacity := 1, allocation := 1, available := 0 } logicalDefWithPath
    rfl rfl rfl rfl).1 rfl "/dev/vg0"

/-- Claim C6: for a valid spec, the definition built at create round-trips
through serialize, define, describe and parse unchanged, and the read
that parses it back reports the spec's name, type and (for dir pools)
path; the parsed definition's source devices equal the spec's. -/
theorem create_read_roundtrip (d : ResourceData) (hv : Hypervisor)
    (d2 : ResourceData) (pd : StoragePool) (b : Bool) (ph : PoolHandle)
    (info : PoolInfo)
    (hvalid : (d.type = "dir" ∧ d.path ≠ "" ∧ d.sourceDevices = []) ∨
              (d.type = "logical" ∧ d.path = ""))
    (hbuild : buildPoolDef d = Except.ok (pd, b))
    (hl : hv.lookupByUUID d2.id = Except.ok ph)
    (hn : ph.getNameRes = Except.ok pd.name)
    (hi : ph.getInfoRes = Except.ok info)
    (hx : ph.getXMLDescRes = Except.ok pd) :
    (xmlMarshallIndented pd = Except.ok pd ∧
     newDefPoolFromXML pd = Except.ok pd) ∧
    (pd.name = d.name ∧ pd.type = d.type ∧
     sourceDevicesOf pd = d.sourceDevices ∧
     (d.type = "dir" → poolPathOf pd = d.path)) ∧
    ((resourceLibvirtPoolRead hv d2).d.name = d.name ∧
     (resourceLibvirtPoolRead hv d2).d.type = d.type ∧
     (d.type = "dir" → (resourceLibvirtPoolRead hv d2).d.path = d.path) ∧
     (resourceLibvirtPoolRead hv d2).err = none) := by
  rw [read_ok_eq hv d2 ph pd.name info pd hl hn hi hx]
  rcases hvalid with ⟨htype, hpath, hdev⟩ | ⟨htype, hpath⟩
  · simp [buildPoolDef, htype, hpath, hdev] at hbuild
    obtain ⟨hpd, hb⟩ := hbuild
    subst hpd
    refine ⟨⟨rfl, rfl⟩,
      ⟨rfl, htype.symm, by simp [sourceDevicesOf, hdev], fun _ => rfl⟩, ?_⟩
    simp [poolPathOf, htype, hpath]
  · rcases hds : d.sourceDevices with _ | ⟨p, ps⟩
    · simp [buildPoolDef, htype, hpath, hds] at hbuild
      obtain ⟨hpd, hb⟩ := hbuild
      subst hpd
      refine ⟨⟨rfl, rfl⟩,
        ⟨rfl, htype.symm, by simp [sourceDevicesOf, hds, Function.comp_def], ?_⟩, ?_⟩
      · intro hd
        rw [htype] at hd
        exact absurd hd (by decide)
      · constructor
        · rfl
        refine ⟨by simp [htype], ?_, rfl⟩
        intro hd
        rw [htype] at hd
        exact absurd hd (by decide)
    · simp [buildPoolDef, htype, hpath, hds] at hbuild
      obtain ⟨hpd, hb⟩ := hbuild
      subst hpd
      refine ⟨⟨rfl, rfl⟩,
        ⟨rfl, htype.symm, by simp [sourceDevicesOf, hds, Function.comp_def], ?_⟩, ?_⟩
      · intro hd
        rw [htype] at hd
        exact absurd hd (by decide)
      · constructor
        · rfl
        refine ⟨by simp [htype], ?_, rfl⟩
        intro hd
        rw [htype] at hd
        exact absurd hd (by decide)

/-- Witness for C6 at a concrete dir spec echoed back by the
hypervisor. -/
theorem create_read_roundtrip_witness :
    (resourceLibvirtPoolRead hvEcho dRes0).d.name = "pool1" ∧
    (resourceLibvirtPoolRead hvEcho dRes0).d.type = "dir" ∧
    (resourceLibvirtPoolRead hvEcho dRes0).d.path = "/tmp/x" := by
  have h := create_read_roundtrip dRes0 hvEcho dRes0 dirDef1 true okHandle
    { capacity := 100, allocation := 10, available := 90 }
    (Or.inl ⟨rfl, by decide, rfl⟩) rfl rfl rfl rfl rfl
  exact ⟨h.2.2.1, h.2.2.2.1, h.2.2.2.2.1 rfl⟩

/-- Every call issued by a read is one of the four read calls; in
particular a read never builds, defines or starts anything. -/
theorem read_calls_sub (hv : Hypervisor) (d : ResourceData) :
    ∀ c ∈ (resourceLibvirtPoolRead hv d).calls,
      c = HCall.lookupByUUID d.id ∨ c = HCall.getName ∨
      c = HCall.getInfo ∨ c = HCall.getXMLDesc := by
  unfold resourceLibvirtPoolRead
  rcases h : hv.lookupByUUID d.id with e | ph
  · simp [h]
  · rcases hn : ph.getNameRes with e | nm
    · simp [h, hn]
    · rcases hi : ph.getInfoRes with e | info
      · simp [h, hn, hi]
      · rcases hx : ph.getXMLDescRes with e | pdx
        · simp [h, hn, hi, hx]
        · simp [h, hn, hi, hx, newDefPoolFromXML]

/-- The calls of the post-build tail of create: it always issues the
autostart call, and issues a build call only if one was already in the
accumulated prefix. -/
theorem createAfterBuild_calls (hv : Hypervisor) (n : Nat)
    (d : ResourceData) (calls : List HCall) (pool : CreatedPool) :
    (HCall.build ∈ (createAfterBuild hv n d calls pool).calls ↔
      HCall.build ∈ calls) ∧
    HCall.setAutostart ∈ (createAfterBuild hv n d calls pool).calls := by
  unfold createAfterBuild
  rcases hsa : pool.setAutostartRes with e | u
  · simp [hsa]
  rcases hst : pool.startRes with e | u
  · simp [hsa, hst]
  rcases hrf : pool.refreshRes with e | u
  · simp [hsa, hst, hrf]
  rcases hid : pool.getUUIDRes with e | uuid
  · simp [hsa, hst, hrf, hid]
  rcases hw : poolWaitForExists hv.pollFound n with e | u
  · simp [hsa, hst, hrf, hid, hw]
  · have hro := read_calls_sub hv { d with id := uuid }
    constructor
    · constructor
      · intro hmem
        simp [hsa, hst, hrf, hid, hw] at hmem
        rcases hmem with hmem | hmem
        · exact hmem
        · rcases hro _ hmem with h | h | h | h <;> simp at h
      · intro hmem
        simp [hsa, hst, hrf, hid, hw]
        exact Or.inl hmem
    · simp [hsa, hst, hrf, hid, hw]

/-- Reduction of create to its post-define tail when the type gate, the
uniqueness pre-check, validation, serialization, transform and define all
pass. -/
theorem create_reaches_define (hv : Hypervisor) (n : Nat)
    (d : ResourceData) (pd : StoragePool) (b : Bool) (td : StoragePool)
    (pool : CreatedPool)
    (htype : d.type = "dir" ∨ d.type = "logical")
    (hlk : hv.lookupByName d.name = false)
    (hbuild : buildPoolDef d = Except.ok (pd, b))
    (htr : hv.transformXML pd = Except.ok td)
    (hdef : hv.define td = Except.ok pool) :
    resourceLibvirtPoolCreate hv n d =
      createAfterDefine hv n d
        [HCall.lookupByName d.name, HCall.defineXML td] pool b := by
  unfold resourceLibvirtPoolCreate
  have hty : ¬(d.type ≠ "dir" ∧ d.type ≠ "logical") := by tauto
  simp only [hty, if_false, hlk, Bool.false_eq_true, hbuild,
    xmlMarshallIndented, htr, hdef]
  rfl

/-- A pool object on which every mutation call succeeds and the UUID is
`u1`. -/
def createdPoolOK : CreatedPool :=
  { buildRes := Except.ok (), setAutostartRes := Except.ok (),
    startRes := Except.ok (), refreshRes := Except.ok (),
    getUUIDRes := Except.ok "u1" }

/-- A pool object whose build call fails. -/
def createdPoolBuildFail : CreatedPool :=
  { buildRes := Except.error "disk full", setAutostartRes := Except.ok (),
    startRes := Except.ok (), refreshRes := Except.ok (),
    getUUIDRes := Except.ok "u1" }

/-- A fresh connection on which create proceeds, every mutation succeeds,
but the existence poll never observes the pool. -/
def hvCreateTimeout : Hypervisor :=
  { lookupByName := fun _ => false,
    transformXML := fun p => Except.ok p,
    define := fun _ => Except.ok createdPoolOK,
    pollFound := fun _ => false,
    lookupByUUID := fun _ =>
      Except.error { code := VirErrorCode.errNoStoragePool, msg := "not yet" } }

/-- A declared dir spec (no id yet). -/
def dSpecDir : ResourceData :=
  { id := "", name := "pool1", type := "dir", path := "/tmp/x",
    sourceDevices := [], capacity := 0, allocation := 0, available := 0 }

/-- A declared logical spec with no source devices (no id yet). -/
def dSpecLogical : ResourceData :=
  { id := "", name := "vg0", type := "logical", path := "",
    sourceDevices := [], capacity := 0, allocation := 0, available := 0 }

/-- Claim C5: when a logical pool declares zero source devices the build step
is skipped (no build call is issued) and create proceeds to the
autostart step; for a dir pool, or a logical pool with source devices,
the build call is issued and a build failure aborts create with the
fatal build error. -/
theorem create_build_policy (hv : Hypervisor) (n : Nat) (d : ResourceData)
    (pd : StoragePool) (b : Bool) (td : StoragePool) (pool : CreatedPool)
    (hlk : hv.lookupByName d.name = false)
    (hbuild : buildPoolDef d = Except.ok (pd, b))
    (htr : hv.transformXML pd = Except.ok td)
    (hdef : hv.define td = Except.ok pool) :
    (d.type = "logical" ∧ d.sourceDevices = [] →
       HCall.build ∉ (resourceLibvirtPoolCreate hv n d).calls ∧
       HCall.setAutostart ∈ (resourceLibvirtPoolCreate hv n d).calls) ∧
    (d.type = "dir" ∨ d.type = "logical" ∧ d.sourceDevices ≠ [] →
       HCall.build ∈ (resourceLibvirtPoolCreate hv n d).calls ∧
       (∀ e, pool.buildRes = Except.error e →
          resourceLibvirtPoolCreate hv n d =
            ⟨[HCall.lookupByName d.name, HCall.defineXML td, HCall.build],
              d, some ("Error building libvirt storage pool: " ++ e)⟩)) := by
  constructor
  · rintro ⟨hlog, hdev⟩
    have hp : d.path = "" := by
      by_cases hp : d.path = ""
      · exact hp
      · simp [buildPoolDef, hlog, hp] at hbuild
    have hb : b = false := by
      have h := hbuild
      simp [buildPoolDef, hlog, hp, hdev] at h
      exact h.2
    subst hb
    rw [create_reaches_define hv n d pd false td pool (Or.inr hlog) hlk
      hbuild htr hdef]
    unfold createAfterDefine
    simp only [if_false, Bool.false_eq_true, reduceIte]
    constructor
    · intro hmem
      have h := (createAfterBuild_calls hv n d
        [HCall.lookupByName d.name, HCall.defineXML td] pool).1.mp hmem
      simp at h
    · exact (createAfterBuild_calls hv n d
        [HCall.lookupByName d.name, HCall.defineXML td] pool).2
  · intro hcase
    have hb : b = true := by
      rcases hcase with hdir | ⟨hlog, hdev⟩
      · have hp : d.path ≠ "" := by
          by_cases hp : d.path = ""
          · simp [buildPoolDef, hdir, hp] at hbuild
          · exact hp
        have hdv : d.sourceDevices.length = 0 := by
          by_cases hdv : d.sourceDevices.length = 0
          · exact hdv
          · simp [buildPoolDef, hdir, hp, hdv] at hbuild
        have h := hbuild
        simp [buildPoolDef, hdir, hp, hdv] at h
        exact h.2
      · have hp : d.path = "" := by
          by_cases hp : d.path = ""
          · exact hp
          · simp [buildPoolDef, hlog, hp] at hbuild
        rcases hds : d.sourceDevices with _ | ⟨p, ps⟩
        · exact absurd hds hdev
        · have h := hbuild
          simp [buildPoolDef, hlog, hp, hds] at h
          exact h.2
    subst hb
    have htype : d.type = "dir" ∨ d.type = "logical" := by tauto
    rw [create_reaches_define hv n d pd true td pool htype hlk
      hbuild htr hdef]
    unfold createAfterDefine
    simp only [if_true, reduceIte]
    rcases hbr : pool.buildRes with e | u
    · constructor
      · simp [hbr]
      · intro e2 he2
        cases he2
        simp
    · constructor
      · exact (createAfterBuild_calls hv n d
          [HCall.lookupByName d.name, HCall.defineXML td, HCall.build]
          pool).1.mpr (by simp)
      · intro e2 he2
        cases he2

/-- Witness for C5: a logical pool with no source devices skips the
build call yet reaches the autostart step. -/
theorem create_build_policy_witness :
    HCall.build ∉
      (resourceLibvirtPoolCreate hvCreateTimeout 3 dSpecLogical).calls ∧
    HCall.setAutostart ∈
      (resourceLibvirtPoolCreate hvCreateTimeout 3 dSpecLogical).calls :=
  (create_build_policy hvCreateTimeout 3 dSpecLogical
    { type := "logical", name := "vg0", target := none, source := none }
    false
    { type := "logical", name := "vg0", target := none, source := none }
    createdPoolOK rfl rfl rfl rfl).1 ⟨rfl, rfl⟩

/-- Claim C8: once the UUID is retrieved it is recorded in the resource state
before the existence poll; a poll timeout aborts create with the fatal
timeout error, yet the returned state still carries the recorded id. -/
theorem create_records_id_before_poll (hv : Hypervisor) (n : Nat)
    (d : ResourceData) (pd : StoragePool) (b : Bool) (td : StoragePool)
    (pool : CreatedPool) (u : String)
    (htype : d.type = "dir" ∨ d.type = "logical")
    (hlk : hv.lookupByName d.name = false)
    (hbuild : buildPoolDef d = Except.ok (pd, b))
    (htr : hv.transformXML pd = Except.ok td)
    (hdef : hv.define td = Except.ok pool)
    (hbr : pool.buildRes = Except.ok ())
    (hsa : pool.setAutostartRes = Except.ok ())
    (hst : pool.startRes = Except.ok ())
    (hrf : pool.refreshRes = Except.ok ())
    (hid : pool.getUUIDRes = Except.ok u)
    (hto : ∀ k, k < n → hv.pollFound k = false) :
    (resourceLibvirtPoolCreate hv n d).d.id = u ∧
    (resourceLibvirtPoolCreate hv n d).err =
      some "timed out waiting for pool to reach EXISTS state" := by
  have hw : poolWaitForExists hv.pollFound n =
      Except.error "timed out waiting for pool to reach EXISTS state" := by
    unfold poolWaitForExists
    rw [if_neg]
    simp only [List.any_eq_true, not_exists, not_and]
    intro k hk
    simp [hto k (List.mem_range.mp hk)]
  rw [create_reaches_define hv n d pd b td pool htype hlk hbuild htr hdef]
  unfold createAfterDefine
  cases b
  · simp only [Bool.false_eq_true, reduceIte]
    unfold createAfterBuild
    rw [hsa, hst, hrf, hid, hw]
    exact ⟨rfl, rfl⟩
  · simp only [reduceIte, hbr]
    unfold createAfterBuild
    rw [hsa, hst, hrf, hid, hw]
    exact ⟨rfl, rfl⟩

/-- Witness for C8: with every mutation succeeding and the poll never
observing the pool, create fails with the timeout yet the state carries
the id `u1`. -/
theorem create_records_id_before_poll_witness :
    (resourceLibvirtPoolCreate hvCreateTimeout 3 dSpecDir).d.id = "u1" ∧
    (resourceLibvirtPoolCreate hvCreateTimeout 3 dSpecDir).err =
      some "timed out waiting for pool to reach EXISTS state" :=
  create_records_id_before_poll hvCreateTimeout 3 dSpecDir
    { type := "dir", name := "pool1",
      target := some { path := "/tmp/x" }, source := none }
    true
    { type := "dir", name := "pool1",
      target := some { path := "/tmp/x" }, source := none }
    createdPoolOK "u1" (Or.inl rfl) rfl rfl rfl rfl rfl rfl rfl rfl rfl
    (fun _ _ => rfl)

/-- A declared dir spec with an empty path. -/
def dDirNoPath : ResourceData :=
  { id := "", name := "pool1", type := "dir", path := "",
    sourceDevices := [], capacity := 0, allocation := 0, available := 0 }

/-- Claim C1 counterexample: on a fresh connection, create of a dir pool with
an empty path does return the validation error, but only after the
lookup-by-name hypervisor call has been issued — the trace is not
empty, refuting "no lookup … occurs before the error is surfaced". -/
theorem create_validation_counterexample :
    (resourceLibvirtPoolCreate hvAbsent 1 dDirNoPath).err =
      some "\x22path\x22 attribute is requires for storage pools of type \x22dir\x22" ∧
    (resourceLibvirtPoolCreate hvAbsent 1 dDirNoPath).calls =
      [HCall.lookupByName "pool1"] := by
  constructor <;> rfl

/-- Claim C1 amended: for dir with an empty path, and for logical with a
non-empty path, when the name is not already in use create surfaces the
validation error before any mutating hypervisor call — the only call
preceding the error is the preliminary lookup-by-name. -/
theorem create_validation_before_mutation (hv : Hypervisor) (n : Nat)
    (d : ResourceData) (hlk : hv.lookupByName d.name = false) :
    (d.type = "dir" ∧ d.path = "" →
      resourceLibvirtPoolCreate hv n d =
        ⟨[HCall.lookupByName d.name], d,
          some "\x22path\x22 attribute is requires for storage pools of type \x22dir\x22"⟩) ∧
    (d.type = "logical" ∧ d.path ≠ "" →
      resourceLibvirtPoolCreate hv n d =
        ⟨[HCall.lookupByName d.name], d,
          some "\x22path\x22 attribute cannot be used for storage pool of type \x22logical\x22"⟩) := by
  constructor
  · rintro ⟨ht, hp⟩
    unfold resourceLibvirtPoolCreate
    have hty : ¬(d.type ≠ "dir" ∧ d.type ≠ "logical") := by tauto
    simp [hty, hlk, buildPoolDef, ht, hp]
  · rintro ⟨ht, hp⟩
    unfold resourceLibvirtPoolCreate
    have hty : ¬(d.type ≠ "dir" ∧ d.type ≠ "logical") := by tauto
    simp [hty, hlk, buildPoolDef, ht, hp]

/-- Witness for the amended C1 at a concrete spec and connection. -/
theorem create_validation_before_mutation_witness :
    resourceLibvirtPoolCreate hvAbsent 1 dDirNoPath =
      ⟨[HCall.lookupByName "pool1"], dDirNoPath,
        some "\x22path\x22 attribute is requires for storage pools of type \x22dir\x22"⟩ :=
  (create_validation_before_mutation hvAbsent 1 dDirNoPath rfl).1 ⟨rfl, rfl⟩

/-- Two strings with different first characters are different. -/
theorem string_head_ne (a b : String) (h : a.data.head? ≠ b.data.head?) :
    a ≠ b :=
  fun he => h (congrArg (fun s => s.data.head?) he)

/-- No error produced by a read is the create-time conflict message. -/
theorem read_err_ne_conflict (hv : Hypervisor) (d : ResourceData)
    (nm : String) :
    (resourceLibvirtPoolRead hv d).err ≠
      some ("storage pool \x27" ++ nm ++ "\x27 already exists") := by
  unfold resourceLibvirtPoolRead
  rcases h : hv.lookupByUUID d.id with e | ph
  · simp [h]
  rcases hn : ph.getNameRes with e | pnm
  · simp only [h, hn, ne_eq, Option.some.injEq]
    exact string_head_ne _ _ (show (some 'e' : Option Char) ≠ some 's' by decide)
  rcases hi : ph.getInfoRes with e | info
  · simp only [h, hn, hi, ne_eq, Option.some.injEq]
    exact string_head_ne _ _ (show (some 'e' : Option Char) ≠ some 's' by decide)
  rcases hx : ph.getXMLDescRes with e | pdx
  · simp only [h, hn, hi, hx, ne_eq, Option.some.injEq]
    exact string_head_ne _ _ (show (some 'c' : Option Char) ≠ some 's' by decide)
  · simp [h, hn, hi, hx, newDefPoolFromXML]

/-- No error produced by the post-build tail of create is the conflict
message. -/
theorem createAfterBuild_err_ne_conflict (hv : Hypervisor) (n : Nat)
    (d : ResourceData) (calls : List HCall) (pool : CreatedPool)
    (nm : String) :
    (createAfterBuild hv n d calls pool).err ≠
      some ("storage pool \x27" ++ nm ++ "\x27 already exists") := by
  unfold createAfterBuild
  rcases hsa : pool.setAutostartRes with e | u
  · simp only [hsa, ne_eq, Option.some.injEq]
    exact string_head_ne _ _ (show (some 'E' : Option Char) ≠ some 's' by decide)
  rcases hst : pool.startRes with e | u
  · simp only [hsa, hst, ne_eq, Option.some.injEq]
    exact string_head_ne _ _ (show (some 'E' : Option Char) ≠ some 's' by decide)
  rcases hrf : pool.refreshRes with e | u
  · simp only [hsa, hst, hrf, ne_eq, Option.some.injEq]
    exact string_head_ne _ _ (show (some 'E' : Option Char) ≠ some 's' by decide)
  rcases hid : pool.getUUIDRes with e | uuid
  · simp only [hsa, hst, hrf, hid, ne_eq, Option.some.injEq]
    exact string_head_ne _ _ (show (some 'E' : Option Char) ≠ some 's' by decide)
  rcases hw : poolWaitForExists hv.pollFound n with e | u
  · have he : e = "timed out waiting for pool to reach EXISTS state" := by
      unfold poolWaitForExists at hw
      split at hw
      · cases hw
      · exact (Except.error.inj hw).symm
    subst he
    simp only [hsa, hst, hrf, hid, hw, ne_eq, Option.some.injEq]
    exact string_head_ne _ _ (show (some 't' : Option Char) ≠ some 's' by decide)
  · simp only [hsa, hst, hrf, hid, hw]
    exact read_err_ne_conflict hv { d with id := uuid } nm

/-- No error produced by the post-define tail of create is the conflict
message. -/
theorem createAfterDefine_err_ne_conflict (hv : Hypervisor) (n : Nat)
    (d : ResourceData) (calls : List HCall) (pool : CreatedPool)
    (b : Bool) (nm : String) :
    (createAfterDefine hv n d calls pool b).err ≠
      some ("storage pool \x27" ++ nm ++ "\x27 already exists") := by
  unfold createAfterDefine
  cases b
  · simp only [Bool.false_eq_true, reduceIte]
    exact createAfterBuild_err_ne_conflict hv n d calls pool nm
  · simp only [reduceIte]
    rcases hbr : pool.buildRes with e | u
    · simp only [hbr, ne_eq, Option.some.injEq]
      exact string_head_ne _ _ (show (some 'E' : Option Char) ≠ some 's' by decide)
    · simp only [hbr]
      exact createAfterBuild_err_ne_conflict hv n d (calls ++ [HCall.build])
        pool nm

/-- No validation error of the type-specific checks is the conflict
message. -/
theorem buildPoolDef_err_ne_conflict (d : ResourceData) (e : String)
    (nm : String) (h : buildPoolDef d = Except.error e) :
    e ≠ "storage pool \x27" ++ nm ++ "\x27 already exists" := by
  unfold buildPoolDef at h
  by_cases h1 : d.type = "dir"
  · by_cases h2 : d.path = ""
    · simp [h1, h2] at h
      subst h
      exact string_head_ne _ _ (show (some '\x22' : Option Char) ≠ some 's' by decide)
    · by_cases h3 : d.sourceDevices.length = 0
      · simp [h1, h2, h3] at h
      · simp [h1, h2, h3] at h
        subst h
        exact string_head_ne _ _ (show (some '\x22' : Option Char) ≠ some 's' by decide)
  · by_cases h2 : d.path = ""
    · rcases hds : d.sourceDevices with _ | ⟨p, ps⟩ <;> simp [h1, h2, hds] at h
    · simp [h1, h2] at h
      subst h
      exact string_head_ne _ _ (show (some '\x22' : Option Char) ≠ some 's' by decide)

/-- A connection on which the declared name is already in use. -/
def hvNameTaken : Hypervisor :=
  { lookupByName := fun _ => true,
    transformXML := fun p => Except.ok p,
    define := fun _ => Except.error "no define",
    pollFound := fun _ => false,
    lookupByUUID := fun _ =>
      Except.error { code := VirErrorCode.errNoStoragePool, msg := "not found" } }

/-- Claim C4: for a supported type, the fatal conflict error naming the pool is
returned exactly when the preliminary lookup-by-name succeeds, and in
that case the trace holds only that lookup — no define, build, autostart
or start has been issued. -/
theorem create_conflict_iff_name_in_use (hv : Hypervisor) (n : Nat)
    (d : ResourceData)
    (htype : d.type = "dir" ∨ d.type = "logical") :
    (hv.lookupByName d.name = true →
      resourceLibvirtPoolCreate hv n d =
        ⟨[HCall.lookupByName d.name], d,
          some ("storage pool \x27" ++ d.name ++ "\x27 already exists")⟩) ∧
    (hv.lookupByName d.name = false →
      (resourceLibvirtPoolCreate hv n d).err ≠
        some ("storage pool \x27" ++ d.name ++ "\x27 already exists")) := by
  have hty : ¬(d.type ≠ "dir" ∧ d.type ≠ "logical") := by tauto
  constructor
  · intro hlk
    unfold resourceLibvirtPoolCreate
    simp [hty, hlk]
  · intro hlk
    unfold resourceLibvirtPoolCreate
    simp only [hty, if_false, reduceIte, hlk, Bool.false_eq_true]
    rcases hb : buildPoolDef d with e | ⟨pd, b⟩
    · simp only [ne_eq, Option.some.injEq]
      exact buildPoolDef_err_ne_conflict d e d.name hb
    · simp only [xmlMarshallIndented]
      rcases htr : hv.transformXML pd with e | td
      · simp only [htr, ne_eq, Option.some.injEq]
        exact string_head_ne _ _ (show (some 'E' : Option Char) ≠ some 's' by decide)
      rcases hdef : hv.define td with e | pool
      · simp only [htr, hdef, ne_eq, Option.some.injEq]
        exact string_head_ne _ _ (show (some 'E' : Option Char) ≠ some 's' by decide)
      · simp only [htr, hdef]
        exact createAfterDefine_err_ne_conflict hv n d
          ([HCall.lookupByName d.name] ++ [HCall.defineXML td]) pool b d.name

/-- Witness for C4: a taken name yields the conflict error with the bare
lookup as the whole trace. -/
theorem create_conflict_iff_name_in_use_witness :
    resourceLibvirtPoolCreate hvNameTaken 1 dSpecDir =
      ⟨[HCall.lookupByName "pool1"], dSpecDir,
        some "storage pool \x27pool1\x27 already exists"⟩ :=
  (create_conflict_iff_name_in_use hvNameTaken 1 dSpecDir (Or.inl rfl)).1 rfl

end LibvirtPool
